import Mathlib

/-!
GridLive dashboard core logic: verification development.

Shallow embedding of the core logic of the GridLive dashboard repository
(`src/utils.py`, `src/plotting.py`) together with proofs about it.

Modelling conventions:
* British National Grid eastings/northings are modelled as natural numbers
  (metres).  The EPSG:4326 ↔ EPSG:27700 projection itself is performed by the
  external `pyproj`/`geopandas` libraries and is treated as an external
  collaborator: functions that consume its output are parameterised by it or
  take projected coordinates directly.  Python's `int()` truncation applied to
  a nonnegative float easting agrees with first taking the floor, so a natural
  number input `E` stands for any real easting with floor `E`.  The
  grid-reference derivation additionally has a signed-`Int` variant that models
  Python's behavior on negative projected coordinates (truncation toward zero,
  nonnegative `%`, negative list indexing, `IndexError`), with its partiality
  made explicit in an `Except` result.
* pandas DataFrames are modelled as Lean lists of structure values, one
  structure field per column.  A column that may be absent is an `Option`
  field.  In-place column assignment (`df["c"] = ...`) is modelled by having
  the function return, alongside its result, the final state of the caller's
  dataframe; functions that do not assign into their input have an explicitly
  defined post-state equal to the input.
* Python float arithmetic in the zoom-level calculation is modelled with real
  numbers; the integer-to-float divisions in the color normalisation with
  rationals.
-/

namespace GridLive

/-! ## Definitions -/

/-! ### Grid reference derivation (`src/utils.py`, `convert_latlon_to_grid_reference`)

The source first inverse-projects (lat, lon) to (easting, northing) via pyproj
(external); the embedded part is everything after that, taken verbatim from the
source: the 500 km / 100 km square index computations, the two letter tables,
the fallback branch, and the zero-padded offsets. -/

/-- First-letter table for 500 km squares (rows south to north), from the source. -/
def first_letters : List (List String) :=
  [["S", "T"],
   ["N", "O"],
   ["H", "J"]]

/-- Second-letter table for 100 km squares, indexed `[easting_index][northing_index_from_top]`,
from the source. -/
def second_letters : List (List String) :=
  [["V", "Q", "L", "F", "A"],
   ["W", "R", "M", "G", "B"],
   ["X", "S", "N", "H", "C"],
   ["Y", "T", "O", "J", "D"],
   ["Z", "U", "P", "K", "E"]]

/-- Decimal rendering of `n` zero-padded to five digits, most significant first.
For `n < 100000` this is exactly Python's `f"{n:05d}"`; both call sites in the
source pass `_ % 100000`, which is always below `100000`. -/
def zpad5 (n : Nat) : String :=
  ⟨[Nat.digitChar (n / 10000 % 10), Nat.digitChar (n / 1000 % 10),
    Nat.digitChar (n / 100 % 10), Nat.digitChar (n / 10 % 10),
    Nat.digitChar (n % 10)]⟩

/-- Embedding of the grid-reference derivation from `convert_latlon_to_grid_reference`
(`src/utils.py`), over the projected easting/northing. -/
def convert_latlon_to_grid_reference (easting northing : Nat) : String :=
  let e_500 := easting / 500000
  let n_500 := northing / 500000
  let e_100 := (easting % 500000) / 100000
  let n_100 := (northing % 500000) / 100000
  let first_letter :=
    if n_500 < first_letters.length ∧ e_500 < (first_letters.getD n_500 []).length then
      (first_letters.getD n_500 []).getD e_500 "S"
    else
      "S"
  let n_100_reversed := 4 - n_100
  let second_letter := (second_letters.getD e_100 []).getD n_100_reversed "?"
  first_letter ++ second_letter ++ zpad5 (easting % 100000) ++ zpad5 (northing % 100000)

/-! #### Python-faithful variant over signed coordinates

West of roughly 15°W or south of the grid origin the projected easting or
northing is negative, and the source's behavior then depends on three Python
specifics the `Nat`-typed function above cannot express: `int()` truncates
toward zero (`Int.tdiv`), `%` by a positive number is nonnegative
(`Int.emod`), and list indexing accepts negative indices from the back but
raises `IndexError` below `-len`.  The following variant models these exactly,
over integer-valued projected coordinates (the source's index computations and
the guard depend only on the integer parts that `tdiv`/`emod` compute). -/

deriving instance DecidableEq for Except

/-- Python list indexing `l[i]`: indices `0 ≤ i < len` count from the front,
`-len ≤ i < 0` from the back (`l[-1]` is the last element), anything else
raises `IndexError`. -/
def pyGet {α : Type} (l : List α) (i : Int) : Except String α :=
  if 0 ≤ i ∧ i < (l.length : Int) then
    match l.get? i.toNat with
    | some a => Except.ok a
    | none => Except.error "IndexError: list index out of range"
  else if -(l.length : Int) ≤ i ∧ i < 0 then
    match l.get? (i + (l.length : Int)).toNat with
    | some a => Except.ok a
    | none => Except.error "IndexError: list index out of range"
  else
    Except.error "IndexError: list index out of range"

/-- The part of the grid reference after the first letter: second letter from
the 5×5 table (indices are always in range because Python `%` by a positive
number is nonnegative) and the two zero-padded offsets. -/
def grid_ref_suffix (easting northing : Int) : String :=
  (second_letters.getD ((easting.emod 500000).toNat / 100000) []).getD
      (4 - (northing.emod 500000).toNat / 100000) "?" ++
    (zpad5 (easting.emod 100000).toNat ++ zpad5 (northing.emod 100000).toNat)

/-- First-letter selection of the source with Python semantics: the guard
`n_500 < len(first_letters) and e_500 < len(first_letters[n_500])` evaluates
left to right, so its right conjunct indexes `first_letters` with `n_500` and
can itself raise `IndexError`; when the guard holds, `first_letters[n_500][e_500]`
indexes the row, which can also raise; otherwise the fallback is `"S"`. -/
def py_first_letter (easting northing : Int) : Except String String :=
  if northing.tdiv 500000 < (first_letters.length : Int) then
    (pyGet first_letters (northing.tdiv 500000)).bind fun row =>
      if easting.tdiv 500000 < (row.length : Int) then
        pyGet row (easting.tdiv 500000)
      else
        Except.ok "S"
  else
    Except.ok "S"

/-- Embedding of `convert_latlon_to_grid_reference` (`src/utils.py`) over
signed integer projected coordinates, with Python's partiality (IndexError)
made explicit. -/
def convert_latlon_to_grid_reference_py (easting northing : Int) :
    Except String String :=
  (py_first_letter easting northing).map
    (fun fl => fl ++ grid_ref_suffix easting northing)

/-! ### Substation aggregation (`src/utils.py`, `process_esa_metadata`)

One `RawSubstationRecord` per dataframe row.  The `number_of_feeders` column
does not exist on the rows the API returns, so it is an `Option` field that is
`none` until `process_esa_metadata` assigns it. -/

structure RawSubstationRecord where
  secondary_substation_id : String
  secondary_substation_name : String
  dno_name : String
  license_area_name : String
  esa_location_eastings : Int
  esa_location_northings : Int
  number_of_feeders : Option Nat := none
deriving DecidableEq

/-- Output row of `process_esa_metadata`: one per unique substation, with the
feeder count and the WGS84 coordinates attached. -/
structure SubstationLocation where
  secondary_substation_id : String
  secondary_substation_name : String
  dno_name : String
  license_area_name : String
  esa_location_eastings : Int
  esa_location_northings : Int
  number_of_feeders : Nat
  longitude : ℝ
  latitude : ℝ

/-- Embedding of `metadata_df["number_of_feeders"] = metadata_df.groupby("secondary_substation_id")
[...].transform("count")`: every row gets the number of rows of the whole
dataframe that share its `secondary_substation_id`.  This is an in-place column
assignment on the caller's dataframe. -/
def add_feeder_counts (df : List RawSubstationRecord) : List RawSubstationRecord :=
  df.map fun r =>
    { r with number_of_feeders := some ((df.map (·.secondary_substation_id)).count r.secondary_substation_id) }

/-- Embedding of `drop_duplicates(subset=["secondary_substation_id"])` with pandas' default
`keep="first"`: keep each row whose id has not appeared earlier. -/
def drop_duplicates_by_id : List RawSubstationRecord → List RawSubstationRecord
  | [] => []
  | r :: rs =>
      r :: (drop_duplicates_by_id rs).filter
        (fun s => s.secondary_substation_id ≠ r.secondary_substation_id)

/-- pandas `Series.unique()`: the distinct values in order of first appearance. -/
def unique_strings : List String → List String
  | [] => []
  | a :: l => a :: (unique_strings l).filter (fun b => b ≠ a)

/-- Builds a `SubstationLocation` from a counted representative row, attaching
the WGS84 coordinates produced by the external EPSG:27700 → EPSG:4326 transform
`T` (geopandas `to_crs`, passed as a parameter: it is an external collaborator). -/
def to_location (T : Int → Int → ℝ × ℝ) (r : RawSubstationRecord) : SubstationLocation :=
  { secondary_substation_id := r.secondary_substation_id
    secondary_substation_name := r.secondary_substation_name
    dno_name := r.dno_name
    license_area_name := r.license_area_name
    esa_location_eastings := r.esa_location_eastings
    esa_location_northings := r.esa_location_northings
    number_of_feeders := r.number_of_feeders.getD 0
    longitude := (T r.esa_location_eastings r.esa_location_northings).1
    latitude := (T r.esa_location_eastings r.esa_location_northings).2 }

/-- Embedding of `process_esa_metadata` (`src/utils.py`).  First component: the
returned `locations_df`.  Second component: the final state of the caller's
`metadata_df`, which the function has modified in place by assigning the
`number_of_feeders` column. -/
def process_esa_metadata (T : Int → Int → ℝ × ℝ) (df : List RawSubstationRecord) :
    List SubstationLocation × List RawSubstationRecord :=
  let counted := add_feeder_counts df
  let locations := drop_duplicates_by_id counted
  (locations.map (to_location T), counted)

/-! ### Smart-meter series building (`src/plotting.py`, `create_smart_meter_plot`)

`value` is the reading of the selected `y_column`.  Timestamps are modelled as
integers ordered like the ISO-8601 instants they stand for. -/

structure RawMeterRecord where
  esa_id : String
  lv_feeder_id : String
  data_timestamp : Int
  value : Int
deriving DecidableEq

/-- Embedding of `combined_data[combined_data[y_column] <= ceiling]`: keep the rows whose
reading does not exceed the ceiling. -/
def filter_outliers (rows : List RawMeterRecord) (ceiling : Int) : List RawMeterRecord :=
  rows.filter (fun r => r.value ≤ ceiling)

/-- The series-shaping part of `create_smart_meter_plot`: drop readings above
the ceiling, then `sort_values(by="data_timestamp")`. -/
def build_meter_series (rows : List RawMeterRecord) (ceiling : Int) : List RawMeterRecord :=
  List.insertionSort (fun a b => a.data_timestamp ≤ b.data_timestamp)
    (filter_outliers rows ceiling)

/-- The source's `create_smart_meter_plot` instantiates the outlier ceiling with the
hard-coded `1_000_000` (src/plotting.py line 345). -/
def create_smart_meter_plot_series (rows : List RawMeterRecord) : List RawMeterRecord :=
  build_meter_series rows 1000000

/-- State of the caller's `combined_data` after `create_smart_meter_plot`: the
function immediately rebinds its local name to a filtered `.copy()` and later
to sorted copies, and never assigns into the caller's frame, so the caller's
rows are unchanged. -/
def create_smart_meter_plot_post (combined_data : List RawMeterRecord) :
    List RawMeterRecord :=
  combined_data

/-- State of the caller's `locations_df` after `create_substation_map`: the
function only reads the frame (`unique`, `min`, `max`, `itertuples`), so the
caller's rows are unchanged. -/
def create_substation_map_post (locations_df : List SubstationLocation) :
    List SubstationLocation :=
  locations_df

/-! ### Color mapping (`src/plotting.py`) -/

/-- The fixed ordered palette used for license areas in `create_substation_map`. -/
def folium_colors : List String :=
  ["blue", "red", "green", "purple", "orange", "darkred", "lightred", "beige",
   "darkblue", "darkgreen", "cadetblue", "darkpurple", "pink", "lightblue",
   "lightgreen", "gray", "black", "lightgray"]

/-- Helper mirroring `enumerate`: assigns `colors[i % len(colors)]` to the
`i`-th name, starting from index `i₀`. -/
def assign_colors : Nat → List String → List (String × String)
  | _, [] => []
  | i, a :: rest =>
      (a, folium_colors.getD (i % folium_colors.length) "") :: assign_colors (i + 1) rest

/-- Embedding of `color_map = {area: colors[i % len(colors)] for i, area in enumerate(unique_areas)}`
with `unique_areas = locations_df["license_area_name"].unique()`, i.e. the
distinct names in order of first appearance (`src/plotting.py`,
`create_substation_map`). -/
def build_color_map (areas : List String) : List (String × String) :=
  assign_colors 0 (unique_strings areas)

/-- Embedding of `get_color_for_license_area` (`src/plotting.py`):
`color_map.get(license_area, "gray")`. -/
def get_color_for_license_area (license_area : String)
    (color_map : List (String × String)) : String :=
  (color_map.lookup license_area).getD "gray"

/-- Lexicographic (code-point) comparison of character lists, the order
Python's `sorted` uses on strings. -/
def charListLe : List Char → List Char → Bool
  | [], _ => true
  | _ :: _, [] => false
  | a :: as, b :: bs => if a = b then charListLe as bs else decide (a < b)

/-- Modelled from the spec: the `categorical_colors` described by the spec,
cycling with modulo index over a **sorted** ordering of the unique area names
(Python `sorted`, lexicographic by code point).  Defined only to be compared
with `build_color_map`, which is what the source actually computes. -/
def sorted_categorical_colors (areas : List String) : List (String × String) :=
  assign_colors 0
    (List.insertionSort (fun a b : String => charListLe a.data b.data = true)
      (unique_strings areas))

/-- Embedding of `get_color_for_feeders` (`src/plotting.py`): continuous color scale with a
guarded degenerate case.  The matplotlib colormap and hex conversion
(`cm.get_cmap("RdYlGn_r")`, `mcolors.rgb2hex`) are an external library,
passed as the parameter `ramp`; the Python float division of the integer
counts is modelled with rationals. -/
def get_color_for_feeders (num_feeders min_feeders max_feeders : Int)
    (ramp : ℚ → String) : String :=
  if max_feeders = min_feeders then
    "#3388ff"
  else
    ramp (((num_feeders : ℚ) - (min_feeders : ℚ)) / ((max_feeders : ℚ) - (min_feeders : ℚ)))

/-! ### Zoom level (`src/plotting.py`, `calculate_zoom_level`)

Python floats are modelled as real numbers.  In the source the clamped zoom is
passed through `int()`; the clamped value is at least 1, so `int()` is the
floor. -/

/-- Value computed by `calculate_zoom_level(radius, map_height)` when it does
not raise: `int(max(1, min(18, log2(156543.03392 · cos(radians(54)) /
(radius · 2 / 0.7 / map_height)))))`. -/
noncomputable def calculate_zoom_level (radius : ℝ) (map_height : ℝ) : ℤ :=
  ⌊max 1 (min 18 (Real.logb 2 (156543.03392 * Real.cos (54.0 * Real.pi / 180) /
    (radius * 2 / 0.7 / map_height))))⌋

section ZoomExceptions

open Classical

/-- Version of `calculate_zoom_level` with Python's partiality made explicit: float
division by zero raises `ZeroDivisionError` (the divisor
`meters_per_pixel = radius * 2 / 0.7 / map_height` being zero), and `math.log2`
of a non-positive argument raises `ValueError`. -/
noncomputable def calculate_zoom_level_py (radius : ℝ) (map_height : ℝ) :
    Except String ℤ :=
  if radius * 2 / 0.7 / map_height = 0 then
    Except.error "ZeroDivisionError: float division by zero"
  else if 156543.03392 * Real.cos (54.0 * Real.pi / 180) /
      (radius * 2 / 0.7 / map_height) ≤ 0 then
    Except.error "ValueError: math domain error"
  else
    Except.ok (calculate_zoom_level radius map_height)

end ZoomExceptions

/-! ## Helper lemmas -/

theorem zpad5_length (n : Nat) : (zpad5 n).length = 5 := rfl

theorem first_letter_length {m k : Nat} (hm : m < 3) (hk : k < 2) :
    ((first_letters.getD m []).getD k "S").length = 1 := by
  interval_cases m <;> interval_cases k <;> rfl

theorem second_letter_length {i j : Nat} (hi : i < 5) (hj : j < 5) :
    ((second_letters.getD i []).getD j "?").length = 1 := by
  interval_cases i <;> interval_cases j <;> rfl

theorem e100_lt_5 (x : Nat) : (x % 500000) / 100000 < 5 :=
  Nat.div_lt_of_lt_mul (Nat.mod_lt _ (by norm_num))

theorem rev_n100_lt_5 (x : Nat) : 4 - (x % 500000) / 100000 < 5 :=
  Nat.lt_succ_of_le (Nat.sub_le 4 _)

/-- When the 500 km indices are inside the tables, `convert_latlon_to_grid_reference`
takes the table branch. -/
theorem grid_reference_in_table_eq (E N : Nat)
    (hn : N / 500000 < 3) (he : E / 500000 < 2) :
    convert_latlon_to_grid_reference E N =
      (first_letters.getD (N / 500000) []).getD (E / 500000) "S" ++
      ((second_letters.getD ((E % 500000) / 100000) []).getD (4 - (N % 500000) / 100000) "?" ++
       (zpad5 (E % 100000) ++ zpad5 (N % 100000))) := by
  have hrow : (first_letters.getD (N / 500000) []).length = 2 := by
    interval_cases h : (N / 500000) <;> rfl
  show (if N / 500000 < first_letters.length ∧
          E / 500000 < (first_letters.getD (N / 500000) []).length then
          (first_letters.getD (N / 500000) []).getD (E / 500000) "S"
        else "S") ++ _ ++ _ ++ _ = _
  rw [if_pos ⟨by simpa [first_letters] using hn, by rw [hrow]; exact he⟩]
  simp [String.append_assoc]

/-- Sanity evaluation of the embedding on a concrete in-range point. -/
theorem grid_reference_sample :
    convert_latlon_to_grid_reference 429157 623410 = "NK2915723410" := by decide

theorem except_bind_ok {ε α β : Type} (a : α) (f : α → Except ε β) :
    (Except.ok a : Except ε α).bind f = f a := rfl

theorem pyGet_too_neg {α : Type} (l : List α) (i : Int) (h : i < -(l.length : Int)) :
    pyGet l i = Except.error "IndexError: list index out of range" := by
  unfold pyGet
  rw [if_neg (by omega), if_neg (by omega)]

theorem pyGet_first_letters_ok {n : Int} (h1 : -3 ≤ n) (h2 : n < 3) :
    ∃ row, pyGet first_letters n = Except.ok row ∧ row.length = 2 := by
  interval_cases n <;> exact ⟨_, rfl, rfl⟩

theorem first_letter_lookup_ok {n e : Int} (h1 : -3 ≤ n) (h2 : n < 3)
    (h3 : -2 ≤ e) (h4 : e < 2) :
    ∃ row fl, pyGet first_letters n = Except.ok row ∧ row.length = 2 ∧
      pyGet row e = Except.ok fl ∧ fl.length = 1 := by
  interval_cases n <;> interval_cases e <;> exact ⟨_, _, rfl, rfl, rfl, rfl⟩

theorem py_first_letter_error_low_n (E N : Int) (h : N.tdiv 500000 < -3) :
    py_first_letter E N = Except.error "IndexError: list index out of range" := by
  have hlen : (first_letters.length : Int) = 3 := rfl
  unfold py_first_letter
  rw [if_pos (by omega), pyGet_too_neg first_letters _ (by omega)]
  rfl

theorem py_first_letter_error_low_e (E N : Int) (h1 : -3 ≤ N.tdiv 500000)
    (h2 : N.tdiv 500000 < 3) (h3 : E.tdiv 500000 < -2) :
    py_first_letter E N = Except.error "IndexError: list index out of range" := by
  have hlen : (first_letters.length : Int) = 3 := rfl
  obtain ⟨row, hrow, hrowlen⟩ := pyGet_first_letters_ok h1 h2
  unfold py_first_letter
  rw [if_pos (by omega), hrow, except_bind_ok, if_pos (by omega),
    pyGet_too_neg row _ (by omega)]

theorem py_first_letter_ok_high_n (E N : Int) (h : 3 ≤ N.tdiv 500000) :
    py_first_letter E N = Except.ok "S" := by
  have hlen : (first_letters.length : Int) = 3 := rfl
  unfold py_first_letter
  rw [if_neg (by omega)]

theorem py_first_letter_ok_high_e (E N : Int) (h1 : -3 ≤ N.tdiv 500000)
    (h2 : N.tdiv 500000 < 3) (h3 : 2 ≤ E.tdiv 500000) :
    py_first_letter E N = Except.ok "S" := by
  have hlen : (first_letters.length : Int) = 3 := rfl
  obtain ⟨row, hrow, hrowlen⟩ := pyGet_first_letters_ok h1 h2
  unfold py_first_letter
  rw [if_pos (by omega), hrow, except_bind_ok, if_neg (by omega)]

theorem py_first_letter_ok_letter (E N : Int) (h1 : -3 ≤ N.tdiv 500000)
    (h2 : N.tdiv 500000 < 3) (h3 : -2 ≤ E.tdiv 500000) (h4 : E.tdiv 500000 < 2) :
    ∃ fl, py_first_letter E N = Except.ok fl ∧ fl.length = 1 := by
  have hlen : (first_letters.length : Int) = 3 := rfl
  obtain ⟨row, fl, hrow, hrowlen, hfl, hfllen⟩ := first_letter_lookup_ok h1 h2 h3 h4
  refine ⟨fl, ?_, hfllen⟩
  unfold py_first_letter
  rw [if_pos (by omega), hrow, except_bind_ok, if_pos (by omega), hfl]

theorem py_grid_ref_of_first_letter_error {E N : Int} {msg : String}
    (h : py_first_letter E N = Except.error msg) :
    convert_latlon_to_grid_reference_py E N = Except.error msg := by
  unfold convert_latlon_to_grid_reference_py
  rw [h]
  rfl

theorem py_grid_ref_of_first_letter_ok {E N : Int} {fl : String}
    (h : py_first_letter E N = Except.ok fl) :
    convert_latlon_to_grid_reference_py E N =
      Except.ok (fl ++ grid_ref_suffix E N) := by
  unfold convert_latlon_to_grid_reference_py
  rw [h]
  rfl

theorem emod_toNat_div_lt_5 (x : Int) : (x.emod 500000).toNat / 100000 < 5 := by
  have h1 : x.emod 500000 < 500000 := Int.emod_lt_of_pos x (by norm_num)
  exact Nat.div_lt_of_lt_mul (by omega)

theorem grid_ref_suffix_length (E N : Int) : (grid_ref_suffix E N).length = 11 := by
  rw [grid_ref_suffix, String.length_append, String.length_append,
    second_letter_length (emod_toNat_div_lt_5 E) (Nat.lt_succ_of_le (Nat.sub_le 4 _)),
    zpad5_length, zpad5_length]

/-- Concrete traces of the Python model on signed coordinates: a first letter
picked by Python negative indexing, and the two IndexError regions. -/
theorem grid_reference_py_samples :
    convert_latlon_to_grid_reference_py (-800000) 100 = Except.ok "TC0000000100" ∧
    convert_latlon_to_grid_reference_py (-1600000) 100 =
      Except.error "IndexError: list index out of range" ∧
    convert_latlon_to_grid_reference_py 0 (-2000000) =
      Except.error "IndexError: list index out of range" := by
  refine ⟨by decide, by decide, by decide⟩

theorem map_id_filter_ne (l : List RawSubstationRecord) (a : String) :
    ((l.filter (fun s => s.secondary_substation_id ≠ a)).map (·.secondary_substation_id)) =
    ((l.map (·.secondary_substation_id)).filter (fun b => b ≠ a)) := by
  induction l with
  | nil => rfl
  | cons r rs ih =>
    by_cases h : r.secondary_substation_id = a <;>
      simp_all [List.filter_cons]

theorem map_id_drop_duplicates (l : List RawSubstationRecord) :
    ((drop_duplicates_by_id l).map (·.secondary_substation_id)) =
    unique_strings (l.map (·.secondary_substation_id)) := by
  induction l with
  | nil => rfl
  | cons r rs ih =>
    simp only [drop_duplicates_by_id, unique_strings, List.map_cons, List.map]
    rw [map_id_filter_ne, ih]

theorem mem_unique_strings (l : List String) (b : String) :
    b ∈ unique_strings l ↔ b ∈ l := by
  induction l with
  | nil => simp [unique_strings]
  | cons a l ih =>
    simp only [unique_strings, List.mem_cons, List.mem_filter, ih]
    by_cases hb : b = a <;> simp [hb]

theorem unique_strings_nodup (l : List String) : (unique_strings l).Nodup := by
  induction l with
  | nil => simp [unique_strings]
  | cons a l ih =>
    simp only [unique_strings, List.nodup_cons]
    refine ⟨fun h => ?_, ih.filter _⟩
    have := List.of_mem_filter h
    simp at this

theorem unique_strings_toFinset (l : List String) :
    (unique_strings l).toFinset = l.toFinset := by
  ext b
  simp [List.mem_toFinset, mem_unique_strings]

theorem unique_strings_length (l : List String) :
    (unique_strings l).length = l.toFinset.card := by
  rw [← List.toFinset_card_of_nodup (unique_strings_nodup l), unique_strings_toFinset]

theorem mem_of_mem_drop_duplicates {r : RawSubstationRecord}
    {l : List RawSubstationRecord} (h : r ∈ drop_duplicates_by_id l) : r ∈ l := by
  induction l with
  | nil => simp [drop_duplicates_by_id] at h
  | cons a l ih =>
    rcases List.mem_cons.mp h with h | h
    · exact h ▸ List.mem_cons_self _ _
    · exact List.mem_cons_of_mem _ (ih (List.mem_of_mem_filter h))

theorem nf_of_mem_add_feeder_counts (df : List RawSubstationRecord)
    {r : RawSubstationRecord} (h : r ∈ add_feeder_counts df) :
    r.number_of_feeders =
      some ((df.map (·.secondary_substation_id)).count r.secondary_substation_id) := by
  rcases List.mem_map.mp h with ⟨s, _, rfl⟩
  rfl

theorem map_id_add_feeder_counts (df : List RawSubstationRecord) :
    ((add_feeder_counts df).map (·.secondary_substation_id)) =
    df.map (·.secondary_substation_id) := by
  simp only [add_feeder_counts, List.map_map]
  rfl

/-! ## Claim theorems -/

/-- C6: for projected coordinates whose 500 km indices lie inside the UK tables,
the grid reference is the first letter from the 3×2 table at `(n500, e500)`, the
second letter from the 5×5 table at `[e100][4 − n100]`, then `E mod 100000` and
`N mod 100000` zero-padded to 5 digits each; the result has exactly 12 characters. -/
theorem grid_reference_in_table (E N : Nat)
    (hn : N / 500000 < 3) (he : E / 500000 < 2) :
    convert_latlon_to_grid_reference E N =
      (first_letters.getD (N / 500000) []).getD (E / 500000) "S" ++
      ((second_letters.getD ((E % 500000) / 100000) []).getD (4 - (N % 500000) / 100000) "?" ++
       (zpad5 (E % 100000) ++ zpad5 (N % 100000))) ∧
    (convert_latlon_to_grid_reference E N).length = 12 := by
  refine ⟨grid_reference_in_table_eq E N hn he, ?_⟩
  rw [grid_reference_in_table_eq E N hn he]
  rw [String.length_append, String.length_append, String.length_append]
  rw [first_letter_length hn he,
    second_letter_length (e100_lt_5 E) (rev_n100_lt_5 N),
    zpad5_length, zpad5_length]

theorem grid_reference_in_table_witness :
    (623410 : Nat) / 500000 < 3 ∧ (429157 : Nat) / 500000 < 2 ∧
    (convert_latlon_to_grid_reference 429157 623410 =
      (first_letters.getD ((623410 : Nat) / 500000) []).getD ((429157 : Nat) / 500000) "S" ++
      ((second_letters.getD (((429157 : Nat) % 500000) / 100000) []).getD
          (4 - ((623410 : Nat) % 500000) / 100000) "?" ++
       (zpad5 ((429157 : Nat) % 100000) ++ zpad5 ((623410 : Nat) % 100000))) ∧
     (convert_latlon_to_grid_reference 429157 623410).length = 12) :=
  ⟨by decide, by decide, grid_reference_in_table 429157 623410 (by decide) (by decide)⟩

/-- C1 counterexample: at `(E, N) = (1200000, 100)` the 500 km easting index is 2,
outside the 3×2 table, yet the function neither raises nor returns a sentinel:
it returns `Except.ok "SC0000000100"`, the very same ordinary grid-reference
string it returns for the in-table point `(200000, 100)`. -/
theorem grid_reference_out_of_table_no_failure :
    ¬ (0 ≤ (100 : Int).tdiv 500000 ∧ (100 : Int).tdiv 500000 < 3 ∧
       0 ≤ (1200000 : Int).tdiv 500000 ∧ (1200000 : Int).tdiv 500000 < 2) ∧
    convert_latlon_to_grid_reference_py 1200000 100 = Except.ok "SC0000000100" ∧
    convert_latlon_to_grid_reference_py 200000 100 = Except.ok "SC0000000100" := by
  refine ⟨by decide, by decide, by decide⟩

/-- C1 amended: on out-of-table 500 km indices the function does not uniformly
fail.  It raises (IndexError) exactly when `n500 < -3`, or `n500 < 3` with
`e500 < -2` (Python negative indexing below `-len`); for every other
out-of-table index pair it returns an ordinary 12-character grid-reference
string (the `"S"` fallback for too-large indices, a table letter picked by
negative indexing for mildly negative ones). -/
theorem grid_reference_out_of_table (E N : Int)
    (_h : ¬ (0 ≤ N.tdiv 500000 ∧ N.tdiv 500000 < 3 ∧
             0 ≤ E.tdiv 500000 ∧ E.tdiv 500000 < 2)) :
    (convert_latlon_to_grid_reference_py E N =
        Except.error "IndexError: list index out of range" ↔
      (N.tdiv 500000 < -3 ∨ (N.tdiv 500000 < 3 ∧ E.tdiv 500000 < -2))) ∧
    (¬ (N.tdiv 500000 < -3 ∨ (N.tdiv 500000 < 3 ∧ E.tdiv 500000 < -2)) →
      ∃ s, convert_latlon_to_grid_reference_py E N = Except.ok s ∧
        s.length = 12) := by
  rcases lt_or_le (N.tdiv 500000) (-3) with hn | hn
  · rw [py_grid_ref_of_first_letter_error (py_first_letter_error_low_n E N hn)]
    exact ⟨⟨fun _ => Or.inl hn, fun _ => rfl⟩, fun hne => absurd (Or.inl hn) hne⟩
  · rcases lt_or_le (N.tdiv 500000) 3 with hn3 | hn3
    · rcases lt_or_le (E.tdiv 500000) (-2) with he | he
      · rw [py_grid_ref_of_first_letter_error
          (py_first_letter_error_low_e E N hn hn3 he)]
        exact ⟨⟨fun _ => Or.inr ⟨hn3, he⟩, fun _ => rfl⟩,
          fun hne => absurd (Or.inr ⟨hn3, he⟩) hne⟩
      · rcases lt_or_le (E.tdiv 500000) 2 with he2 | he2
        · obtain ⟨fl, hfl, hfllen⟩ := py_first_letter_ok_letter E N hn hn3 he he2
          rw [py_grid_ref_of_first_letter_ok hfl]
          refine ⟨⟨fun hcontra => Except.noConfusion hcontra, fun hor => ?_⟩,
            fun _ => ⟨_, rfl, ?_⟩⟩
          · rcases hor with h1 | ⟨_, h2⟩ <;> exfalso <;> omega
          · rw [String.length_append, hfllen, grid_ref_suffix_length]
        · rw [py_grid_ref_of_first_letter_ok
            (py_first_letter_ok_high_e E N hn hn3 he2)]
          refine ⟨⟨fun hcontra => Except.noConfusion hcontra, fun hor => ?_⟩,
            fun _ => ⟨_, rfl, ?_⟩⟩
          · rcases hor with h1 | ⟨_, h2⟩ <;> exfalso <;> omega
          · rw [String.length_append, grid_ref_suffix_length]
            rfl
    · rw [py_grid_ref_of_first_letter_ok (py_first_letter_ok_high_n E N hn3)]
      refine ⟨⟨fun hcontra => Except.noConfusion hcontra, fun hor => ?_⟩,
        fun _ => ⟨_, rfl, ?_⟩⟩
      · rcases hor with h1 | ⟨h2, _⟩ <;> exfalso <;> omega
      · rw [String.length_append, grid_ref_suffix_length]
        rfl

theorem grid_reference_out_of_table_witness :
    ¬ (0 ≤ (100 : Int).tdiv 500000 ∧ (100 : Int).tdiv 500000 < 3 ∧
       0 ≤ (-800000 : Int).tdiv 500000 ∧ (-800000 : Int).tdiv 500000 < 2) ∧
    ((convert_latlon_to_grid_reference_py (-800000) 100 =
        Except.error "IndexError: list index out of range" ↔
      ((100 : Int).tdiv 500000 < -3 ∨
       ((100 : Int).tdiv 500000 < 3 ∧ (-800000 : Int).tdiv 500000 < -2))) ∧
     (¬ ((100 : Int).tdiv 500000 < -3 ∨
         ((100 : Int).tdiv 500000 < 3 ∧ (-800000 : Int).tdiv 500000 < -2)) →
       ∃ s, convert_latlon_to_grid_reference_py (-800000) 100 = Except.ok s ∧
         s.length = 12)) :=
  ⟨by decide, grid_reference_out_of_table (-800000) 100 (by decide)⟩

/-- C2: the aggregation invariant of `process_esa_metadata`: the output has one
row per distinct `secondary_substation_id` of the input, and the
`number_of_feeders` values over the output sum to the input row count. -/
theorem process_esa_metadata_aggregation (T : Int → Int → ℝ × ℝ)
    (df : List RawSubstationRecord) :
    (process_esa_metadata T df).1.length =
      (df.map (·.secondary_substation_id)).toFinset.card ∧
    ((process_esa_metadata T df).1.map (·.number_of_feeders)).sum = df.length := by
  constructor
  · show ((drop_duplicates_by_id (add_feeder_counts df)).map (to_location T)).length = _
    rw [List.length_map,
      ← List.length_map (drop_duplicates_by_id (add_feeder_counts df))
          (·.secondary_substation_id),
      map_id_drop_duplicates, map_id_add_feeder_counts, unique_strings_length]
  · show (((drop_duplicates_by_id (add_feeder_counts df)).map (to_location T)).map
        (·.number_of_feeders)).sum = df.length
    rw [List.map_map]
    have hmap : (drop_duplicates_by_id (add_feeder_counts df)).map
          ((·.number_of_feeders) ∘ to_location T) =
        (drop_duplicates_by_id (add_feeder_counts df)).map
          (fun r => (df.map (·.secondary_substation_id)).count r.secondary_substation_id) := by
      apply List.map_congr_left
      intro r hr
      have hmem : r ∈ add_feeder_counts df := mem_of_mem_drop_duplicates hr
      show (to_location T r).number_of_feeders = _
      simp [to_location, nf_of_mem_add_feeder_counts df hmem]
    rw [hmap]
    have h2 : (drop_duplicates_by_id (add_feeder_counts df)).map
          (fun r => (df.map (·.secondary_substation_id)).count r.secondary_substation_id) =
        (unique_strings (df.map (·.secondary_substation_id))).map
          (fun a => (df.map (·.secondary_substation_id)).count a) := by
      rw [← map_id_add_feeder_counts df, ← map_id_drop_duplicates, List.map_map]
      rfl
    rw [h2, ← List.sum_toFinset _ (unique_strings_nodup _), unique_strings_toFinset,
      List.sum_toFinset_count_eq_length, List.length_map]

/-- C9: the series builder keeps exactly the records whose reading does not
exceed the ceiling, and on the spec's concrete scenario the record with value
2,000,000 is dropped while the one with value 500 is kept. -/
theorem build_meter_series_filter :
    (∀ (rows : List RawMeterRecord) (ceiling : Int) (r : RawMeterRecord),
       r ∈ build_meter_series rows ceiling ↔ r ∈ rows ∧ r.value ≤ ceiling) ∧
    create_smart_meter_plot_series
        [{ esa_id := "e1", lv_feeder_id := "f1", data_timestamp := 1, value := 2000000 },
         { esa_id := "e1", lv_feeder_id := "f2", data_timestamp := 2, value := 500 }] =
      [{ esa_id := "e1", lv_feeder_id := "f2", data_timestamp := 2, value := 500 }] := by
  constructor
  · intro rows ceiling r
    rw [build_meter_series, List.mem_insertionSort, filter_outliers, List.mem_filter]
    simp
  · decide

/-- C5: on zero input rows neither the aggregator nor the series builder
fails: both return an empty collection. -/
theorem empty_input_gives_empty_output (T : Int → Int → ℝ × ℝ) :
    (process_esa_metadata T []).1 = [] ∧ create_smart_meter_plot_series [] = [] :=
  ⟨rfl, rfl⟩

/-- C4 counterexample: `process_esa_metadata` mutates its input collection in
place: after the call on this one-row dataframe, the caller's dataframe has
gained a `number_of_feeders` column, so it is no longer equal to the input. -/
theorem process_esa_metadata_mutates_input :
    (process_esa_metadata (fun _ _ => ((0 : ℝ), (0 : ℝ)))
        [{ secondary_substation_id := "A", secondary_substation_name := "sub A",
           dno_name := "d", license_area_name := "l",
           esa_location_eastings := 0, esa_location_northings := 0 }]).2 ≠
      [{ secondary_substation_id := "A", secondary_substation_name := "sub A",
         dno_name := "d", license_area_name := "l",
         esa_location_eastings := 0, esa_location_northings := 0 }] := by
  decide

/-- C4 amended: the Series Builder and the map builder leave their input rows
unchanged, but the Substation Aggregator does mutate its input dataframe in
place.  Its only in-place effect is assigning the `number_of_feeders` column:
erasing that column recovers the input, and row count is preserved. -/
theorem core_input_mutation_discipline (T : Int → Int → ℝ × ℝ)
    (meter_rows : List RawMeterRecord) (locations : List SubstationLocation)
    (df : List RawSubstationRecord) :
    create_smart_meter_plot_post meter_rows = meter_rows ∧
    create_substation_map_post locations = locations ∧
    ((process_esa_metadata T df).2.map (fun r => { r with number_of_feeders := none })) =
      df.map (fun r => { r with number_of_feeders := none }) ∧
    (process_esa_metadata T df).2.length = df.length := by
  refine ⟨rfl, rfl, ?_, ?_⟩
  · show ((add_feeder_counts df).map _) = _
    rw [add_feeder_counts, List.map_map]
    rfl
  · show (add_feeder_counts df).length = df.length
    rw [add_feeder_counts, List.length_map]

/-! ## Color-mapping lemmas and claims -/

theorem lookup_assign_colors {l : List String} (hnd : l.Nodup) :
    ∀ (i k : Nat) (hk : k < l.length),
      (assign_colors i l).lookup (l.get ⟨k, hk⟩) =
        some (folium_colors.getD ((i + k) % folium_colors.length) "") := by
  induction l with
  | nil => intro i k hk; simp at hk
  | cons b rest ih =>
    intro i k hk
    match k with
    | 0 =>
      show (assign_colors i (b :: rest)).lookup b = _
      simp [assign_colors, List.lookup]
    | k + 1 =>
      have hk1 : k < rest.length := Nat.lt_of_succ_lt_succ hk
      show (assign_colors i (b :: rest)).lookup (rest.get ⟨k, hk1⟩) = _
      have hmem : rest.get ⟨k, hk1⟩ ∈ rest := List.get_mem rest k hk1
      have hab : rest.get ⟨k, hk1⟩ ≠ b :=
        fun e => (List.nodup_cons.mp hnd).1 (e ▸ hmem)
      have hne : (rest.get ⟨k, hk1⟩ == b) = false := beq_eq_false_iff_ne.mpr hab
      rw [assign_colors, List.lookup, hne,
        ih (List.nodup_cons.mp hnd).2 (i + 1) k hk1]
      have harith : i + 1 + k = i + (k + 1) := by omega
      rw [harith]

theorem lookup_assign_colors_of_not_mem {a : String} :
    ∀ (l : List String) (i : Nat), a ∉ l → (assign_colors i l).lookup a = none := by
  intro l
  induction l with
  | nil => intro i _; rfl
  | cons b rest ih =>
    intro i h
    have hne : (a == b) = false := by
      have : a ≠ b := fun e => h (e ▸ List.mem_cons_self b rest)
      simp [this]
    rw [assign_colors, List.lookup, hne]
    exact ih (i + 1) (fun hm => h (List.mem_cons_of_mem _ hm))

/-- C3 amended: the color map built by `create_substation_map` cycles with
modulo index through the fixed palette over the unique area names **in order of
first appearance** (pandas `unique()`), not over a sorted ordering; looking up
an area absent from the input returns the fallback color `"gray"`. -/
theorem categorical_color_assignment (areas : List String) :
    (∀ (k : Nat) (hk : k < (unique_strings areas).length),
       get_color_for_license_area ((unique_strings areas).get ⟨k, hk⟩)
           (build_color_map areas) =
         folium_colors.getD (k % folium_colors.length) "") ∧
    (∀ a : String, a ∉ areas →
       get_color_for_license_area a (build_color_map areas) = "gray") := by
  constructor
  · intro k hk
    rw [get_color_for_license_area, build_color_map,
      lookup_assign_colors (unique_strings_nodup areas) 0 k hk]
    simp
  · intro a h
    have hnm : a ∉ unique_strings areas :=
      fun hm => h ((mem_unique_strings areas a).mp hm)
    rw [get_color_for_license_area, build_color_map,
      lookup_assign_colors_of_not_mem _ 0 hnm]
    rfl

theorem categorical_color_assignment_witness :
    (∃ hk : 1 < (unique_strings ["b", "a"]).length,
       get_color_for_license_area ((unique_strings ["b", "a"]).get ⟨1, hk⟩)
           (build_color_map ["b", "a"]) =
         folium_colors.getD (1 % folium_colors.length) "") ∧
    (("zzz" : String) ∉ (["b", "a"] : List String) ∧
     get_color_for_license_area "zzz" (build_color_map ["b", "a"]) = "gray") :=
  ⟨⟨by decide, (categorical_color_assignment ["b", "a"]).1 1 (by decide)⟩,
   by decide, (categorical_color_assignment ["b", "a"]).2 "zzz" (by decide)⟩

/-- C3 counterexample: on input order `["b", "a"]` the source assigns colors in
appearance order (`"b" ↦ "blue"`, `"a" ↦ "red"`), while cycling over the sorted
unique names — what the claim states — assigns `"a" ↦ "blue"` and
`"b" ↦ "red"`; the two mappings disagree. -/
theorem color_map_not_sorted :
    get_color_for_license_area "a" (build_color_map ["b", "a"]) = "red" ∧
    get_color_for_license_area "a" (sorted_categorical_colors ["b", "a"]) = "blue" ∧
    get_color_for_license_area "b" (build_color_map ["b", "a"]) = "blue" ∧
    get_color_for_license_area "b" (sorted_categorical_colors ["b", "a"]) = "red" := by
  refine ⟨by decide, by decide, by decide, by decide⟩

/-- C8: when `max_feeders == min_feeders`, `get_color_for_feeders` returns the
fixed default color `"#3388ff"` for every count and never reaches the division. -/
theorem get_color_for_feeders_degenerate (x m : Int) (ramp : ℚ → String) :
    get_color_for_feeders x m m ramp = "#3388ff" := by
  rw [get_color_for_feeders, if_pos rfl]

/-! ## Zoom-level lemmas and claims -/

theorem web_mercator_cos_pos : 0 < Real.cos (54.0 * Real.pi / 180) := by
  apply Real.cos_pos_of_mem_Ioo
  refine Set.mem_Ioo.mpr ⟨?_, ?_⟩
  · nlinarith [Real.pi_pos]
  · nlinarith [Real.pi_pos]

theorem clamp_floor_bounds (z : ℝ) :
    1 ≤ ⌊max 1 (min 18 z)⌋ ∧ ⌊max 1 (min 18 z)⌋ ≤ 18 := by
  constructor
  · rw [Int.le_floor]
    exact_mod_cast le_max_left (1 : ℝ) (min 18 z)
  · have h : max 1 (min 18 z) ≤ (18 : ℝ) := max_le (by norm_num) (min_le_left _ _)
    calc ⌊max 1 (min 18 z)⌋ ≤ ⌊(18 : ℝ)⌋ := Int.floor_le_floor h
      _ = 18 := by norm_num

theorem calculate_zoom_level_bounds (r mh : ℝ) :
    1 ≤ calculate_zoom_level r mh ∧ calculate_zoom_level r mh ≤ 18 :=
  clamp_floor_bounds _

theorem calculate_zoom_level_antitone {r1 r2 : ℝ} (h0 : 0 < r1) (h12 : r1 ≤ r2) :
    calculate_zoom_level r2 600 ≤ calculate_zoom_level r1 600 := by
  have hd1 : 0 < r1 * 2 / 0.7 / 600 :=
    div_pos (div_pos (mul_pos h0 two_pos) (by norm_num)) (by norm_num)
  have hd12 : r1 * 2 / 0.7 / 600 ≤ r2 * 2 / 0.7 / 600 := by gcongr
  have hC : 0 < 156543.03392 * Real.cos (54.0 * Real.pi / 180) :=
    mul_pos (by norm_num) web_mercator_cos_pos
  have hd2 : 0 < r2 * 2 / 0.7 / 600 := lt_of_lt_of_le hd1 hd12
  have harg : 156543.03392 * Real.cos (54.0 * Real.pi / 180) / (r2 * 2 / 0.7 / 600) ≤
      156543.03392 * Real.cos (54.0 * Real.pi / 180) / (r1 * 2 / 0.7 / 600) :=
    div_le_div_of_nonneg_left (le_of_lt hC) hd1 hd12
  have harg2 : 0 < 156543.03392 * Real.cos (54.0 * Real.pi / 180) / (r2 * 2 / 0.7 / 600) :=
    div_pos hC hd2
  have hlog := Real.logb_le_logb_of_le one_lt_two harg2 harg
  exact Int.floor_le_floor (max_le_max le_rfl (min_le_min le_rfl hlog))

/-- C7: for radii in `[1, 10^7]` the computed zoom level lies in `[1, 18]`,
and it is monotonically non-increasing as the radius increases. -/
theorem calculate_zoom_level_clamped_and_antitone (r1 r2 : ℝ)
    (h1 : 1 ≤ r1) (h12 : r1 ≤ r2) (_h2 : r2 ≤ 10000000) :
    (1 ≤ calculate_zoom_level r1 600 ∧ calculate_zoom_level r1 600 ≤ 18 ∧
     1 ≤ calculate_zoom_level r2 600 ∧ calculate_zoom_level r2 600 ≤ 18) ∧
    calculate_zoom_level r2 600 ≤ calculate_zoom_level r1 600 :=
  ⟨⟨(calculate_zoom_level_bounds r1 600).1, (calculate_zoom_level_bounds r1 600).2,
    (calculate_zoom_level_bounds r2 600).1, (calculate_zoom_level_bounds r2 600).2⟩,
   calculate_zoom_level_antitone (lt_of_lt_of_le one_pos h1) h12⟩

theorem calculate_zoom_level_clamped_and_antitone_witness :
    (1 : ℝ) ≤ 1000 ∧ (1000 : ℝ) ≤ 5000 ∧ (5000 : ℝ) ≤ 10000000 ∧
    ((1 ≤ calculate_zoom_level 1000 600 ∧ calculate_zoom_level 1000 600 ≤ 18 ∧
      1 ≤ calculate_zoom_level 5000 600 ∧ calculate_zoom_level 5000 600 ≤ 18) ∧
     calculate_zoom_level 5000 600 ≤ calculate_zoom_level 1000 600) :=
  ⟨by norm_num, by norm_num, by norm_num,
   calculate_zoom_level_clamped_and_antitone 1000 5000
     (by norm_num) (by norm_num) (by norm_num)⟩

theorem calculate_zoom_level_py_ok {r mh : ℝ} (hr : 0 < r) (hmh : 0 < mh) :
    calculate_zoom_level_py r mh = Except.ok (calculate_zoom_level r mh) := by
  have hd : 0 < r * 2 / 0.7 / mh :=
    div_pos (div_pos (mul_pos hr two_pos) (by norm_num)) hmh
  have harg : 0 < 156543.03392 * Real.cos (54.0 * Real.pi / 180) / (r * 2 / 0.7 / mh) :=
    div_pos (mul_pos (by norm_num) web_mercator_cos_pos) hd
  rw [calculate_zoom_level_py, if_neg (ne_of_gt hd), if_neg (not_le.mpr harg)]

/-- C10: the zoom computation is only defined for strictly positive radius:
radius 0 makes the meters-per-pixel divisor zero (Python raises
`ZeroDivisionError`), a negative radius makes the `log2` argument negative
(Python raises `ValueError`), and any positive radius yields the zoom value. -/
theorem calculate_zoom_level_py_domain :
    calculate_zoom_level_py 0 600 =
      Except.error "ZeroDivisionError: float division by zero" ∧
    (∀ r : ℝ, r < 0 →
       calculate_zoom_level_py r 600 =
         Except.error "ValueError: math domain error") ∧
    (∀ r : ℝ, 0 < r →
       calculate_zoom_level_py r 600 = Except.ok (calculate_zoom_level r 600)) := by
  refine ⟨?_, ?_, ?_⟩
  · rw [calculate_zoom_level_py, if_pos (by norm_num)]
  · intro r hr
    have hd : r * 2 / 0.7 / 600 < 0 :=
      div_neg_of_neg_of_pos
        (div_neg_of_neg_of_pos (mul_neg_of_neg_of_pos hr two_pos) (by norm_num))
        (by norm_num)
    have harg : 156543.03392 * Real.cos (54.0 * Real.pi / 180) / (r * 2 / 0.7 / 600) < 0 :=
      div_neg_of_pos_of_neg (mul_pos (by norm_num) web_mercator_cos_pos) hd
    rw [calculate_zoom_level_py, if_neg (ne_of_lt hd), if_pos (le_of_lt harg)]
  · intro r hr
    exact calculate_zoom_level_py_ok hr (by norm_num)

theorem calculate_zoom_level_py_domain_witness :
    ((-5 : ℝ) < 0 ∧
     calculate_zoom_level_py (-5) 600 =
       Except.error "ValueError: math domain error") ∧
    ((0 : ℝ) < 25 ∧
     calculate_zoom_level_py 25 600 = Except.ok (calculate_zoom_level 25 600)) :=
  ⟨⟨by norm_num, calculate_zoom_level_py_domain.2.1 (-5) (by norm_num)⟩,
   ⟨by norm_num, calculate_zoom_level_py_domain.2.2 25 (by norm_num)⟩⟩

end GridLive
